import Mathlib

/-!
Verification of the freshcart inventory/billing REST backend (`src/server.js`).

The store (SQLite) is modelled as in-memory lists of rows; each Express route
handler becomes a pure Lean function.  Asynchronous store callbacks receive an
error argument `err`; we model that as an explicit `Option String` parameter of
each handler (`none` = the statement succeeded, `some e` = the store reported
the failure text `e`).  Bytes of an image blob are a `List Nat` (each entry one
byte value).  JavaScript truthiness on the strings involved (`if (category)`,
`!name`, `req.file || null`) is reflected by `String.isEmpty` tests and
`Option` matches, mirroring that `undefined` and `""` are falsy while every
buffer object (even an empty one) is truthy.
-/

namespace FreshCart

/-- Raw blob bytes, one `Nat` per byte. -/
abbrev Bytes := List Nat

/-- A row of the `inventory` table (`CREATE TABLE inventory ...`, server.js
lines 30-38): id, name, price, stock, unit, category, optional image blob. -/
structure ProductRow where
  id : Nat
  name : String
  price : Int
  stock : Int
  unit : String
  category : String
  image : Option Bytes
deriving Repr, DecidableEq

/-- The `inventory` table together with the next auto-increment id. -/
structure InventoryDB where
  rows : List ProductRow
  nextId : Nat
deriving Repr, DecidableEq

/-- The non-id columns sent by a client when creating or updating a product
(`req.body` of POST /addProduct and PUT /updateProduct). -/
structure ProductPayload where
  name : String
  price : Int
  stock : Int
  unit : String
  category : String
deriving Repr, DecidableEq

/-- A row of the `users` table (server.js lines 40-47). -/
structure UserRow where
  id : Nat
  name : String
  username : String
  email : String
  password : String
  address : String
deriving Repr, DecidableEq

/-- The `users` table together with the next auto-increment id. -/
structure UsersDB where
  rows : List UserRow
  nextId : Nat
deriving Repr, DecidableEq

/-- The body of POST /register.  A field the client omitted arrives as
`undefined`, which the handler's truthiness test treats exactly like the empty
string, so both are modelled as `""`. -/
structure RegPayload where
  name : String
  username : String
  email : String
  address : String
  password : String
deriving Repr, DecidableEq

/-- The base64 alphabet used by Node's `buffer.toString('base64')`. -/
def base64Alphabet : List Char :=
  "ABCDEFGHIJKLMNOPQRSTUVWXYZabcdefghijklmnopqrstuvwxyz0123456789+/".toList

/-- Character for a 6-bit group. -/
def b64Char (n : Nat) : Char := base64Alphabet.getD n 'A'

/-- RFC 4648 base64 of a byte list, as produced by `toString('base64')` on a
Node buffer (server.js lines 127 and 231). -/
def base64Encode : Bytes → String
  | [] => ""
  | [a] =>
    String.mk [b64Char (a % 256 / 4), b64Char (a % 4 * 16), '=', '=']
  | [a, b] =>
    String.mk [b64Char (a % 256 / 4), b64Char (a % 4 * 16 + b % 256 / 16),
      b64Char (b % 16 * 4), '=']
  | a :: b :: c :: rest =>
    String.mk [b64Char (a % 256 / 4), b64Char (a % 4 * 16 + b % 256 / 16),
      b64Char (b % 16 * 4 + c % 256 / 64), b64Char (c % 256 % 64)] ++
      base64Encode rest

/-- Modelled from the spec: the external bcryptjs library's salted hash
(`bcrypt.hash(password, 10)`), which the spec describes as "an irreversible
salted hash, never plaintext" with a "per-password random salt".  The digest
scrambles the password together with the salt into lowercase letters (a lossy,
non-invertible map, standing in for the blowfish-based digest). -/
def bcryptDigest (password salt : String) : String :=
  String.mk (List.map (fun c => Char.ofNat (c.toNat * 7 % 26 + 97))
    (password ++ salt).data)

/-- Modelled from the spec: the full bcrypt output in modular-crypt format,
`$2a$10$<salt>$<digest>` — algorithm tag, cost, the salt, and the digest of
password and salt. -/
def bcryptHash (password salt : String) : String :=
  "$2a$10$" ++ salt ++ "$" ++ bcryptDigest password salt

/-- Modelled from the spec: recover the salt embedded in a stored bcrypt
string (the characters between the cost field and the digest). -/
def bcryptExtractSalt (stored : String) : String :=
  String.mk ((stored.data.drop 7).takeWhile (fun c => c ≠ '$'))

/-- Modelled from the spec: `bcrypt.compare(password, stored)` — re-hash the
candidate password with the salt embedded in the stored string and compare. -/
def bcryptCompare (password stored : String) : Bool :=
  stored == bcryptHash password (bcryptExtractSalt stored)

/-! ## Responses -/

/-- The JSON shape of a product sent to clients by GET /products and
GET /product/:id: the row with the blob replaced by its base64 string. -/
structure ProductJson where
  id : Nat
  name : String
  price : Int
  stock : Int
  unit : String
  category : String
  image : Option String
deriving Repr, DecidableEq

/-- Row to JSON payload (server.js lines 119-129, 229-234). -/
def productJson (r : ProductRow) : ProductJson :=
  { id := r.id, name := r.name, price := r.price, stock := r.stock,
    unit := r.unit, category := r.category,
    image := r.image.map base64Encode }

/-- Response of GET /image/:id: 404 `"Image not found"`, or 200 raw bytes with
an explicit content type (server.js lines 86-95). -/
inductive ImageResp where
  | notFound
  | ok (contentType : String) (bytes : Bytes)
deriving Repr, DecidableEq

/-- HTTP status of an image response. -/
def ImageResp.status : ImageResp → Nat
  | .notFound => 404
  | .ok _ _ => 200

/-- Response of GET /products: 500 `{error}` or 200 with the JSON array. -/
inductive ListResp where
  | storeError (e : String)
  | ok (products : List ProductJson)
deriving Repr, DecidableEq

/-- HTTP status of a list response. -/
def ListResp.status : ListResp → Nat
  | .storeError _ => 500
  | .ok _ => 200

/-- The product array of a list response (`[]` on the error branch, which
never carries products). -/
def ListResp.products : ListResp → List ProductJson
  | .storeError _ => []
  | .ok l => l

/-- Response of GET /product/:id: 500 `{error}`, 404, or 200 with the JSON
product. -/
inductive GetOneResp where
  | storeError (e : String)
  | notFound
  | ok (product : ProductJson)
deriving Repr, DecidableEq

/-- HTTP status of a get-one response. -/
def GetOneResp.status : GetOneResp → Nat
  | .storeError _ => 500
  | .notFound => 404
  | .ok _ => 200

/-- Response of POST /addProduct: 500 `{error}` or 200 echoing the new id,
the fields, and the image URL when an image was stored (server.js 148-155). -/
inductive AddResp where
  | storeError (e : String)
  | ok (id : Nat) (payload : ProductPayload) (imageUrl : Option String)
deriving Repr, DecidableEq

/-- HTTP status of an add response. -/
def AddResp.status : AddResp → Nat
  | .storeError _ => 500
  | .ok _ _ _ => 200

/-- The id echoed by a successful add response. -/
def AddResp.productId : AddResp → Option Nat
  | .storeError _ => none
  | .ok i _ _ => some i

/-- The JSON shape of a product in the GET /getInventory listing: the image
is a URL (`/image/<id>`) or null, never inline bytes (server.js 160-173). -/
structure InventorySummary where
  id : Nat
  name : String
  price : Int
  stock : Int
  unit : String
  category : String
  image : Option String
deriving Repr, DecidableEq

/-- Response of GET /getInventory: 500 `{error}` or 200 with the summaries. -/
inductive InvListResp where
  | storeError (e : String)
  | ok (products : List InventorySummary)
deriving Repr, DecidableEq

/-- HTTP status of an inventory-summary response. -/
def InvListResp.status : InvListResp → Nat
  | .storeError _ => 500
  | .ok _ => 200

/-- A row of the `bills` table (server.js lines 49-53). -/
structure BillRow where
  id : Nat
  date : String
  total_amount : Int
deriving Repr, DecidableEq

/-- Response of GET /getBills: 500 `{error}` or 200 with all rows. -/
inductive BillsResp where
  | storeError (e : String)
  | ok (bills : List BillRow)
deriving Repr, DecidableEq

/-- HTTP status of a bills response. -/
def BillsResp.status : BillsResp → Nat
  | .storeError _ => 500
  | .ok _ => 200

/-- Response of DELETE /deleteProduct/:id and PUT /updateProduct/:id:
500 `{error}` or 200 with a message. -/
inductive SimpleResp where
  | storeError (e : String)
  | ok (message : String)
deriving Repr, DecidableEq

/-- HTTP status of a simple response. -/
def SimpleResp.status : SimpleResp → Nat
  | .storeError _ => 500
  | .ok _ => 200

/-- Response of POST /register: status plus message. -/
structure RegResp where
  status : Nat
  message : String
deriving Repr, DecidableEq

/-- Response of POST /login: status plus `{success, message}`. -/
structure LoginResp where
  status : Nat
  success : Bool
  message : String
deriving Repr, DecidableEq

/-! ## Handlers -/

/-- GET /image/:id (server.js lines 86-95).  `if (err || !row || !row.image)`
responds 404 — a store error, a missing row and a NULL image column all land
on the same branch; otherwise 200 with content type hardcoded to
`image/jpeg` and the raw stored bytes. -/
def getImage (err : Option String) (db : InventoryDB) (i : Nat) : ImageResp :=
  match err with
  | some _ => .notFound
  | none =>
    match db.rows.find? (fun r => r.id == i) with
    | none => .notFound
    | some r =>
      match r.image with
      | none => .notFound
      | some b => .ok "image/jpeg" b

/-- GET /products (server.js lines 103-133).  `if (category)` appends the
`WHERE category = ?` clause only when the query parameter is truthy, i.e.
present and non-empty; the rows are then serialized with base64 images. -/
def listProducts (err : Option String) (db : InventoryDB)
    (cat : Option String) : ListResp :=
  match err with
  | some e => .storeError e
  | none =>
    let selected :=
      match cat with
      | some c => if c = "" then db.rows
          else db.rows.filter (fun r => r.category == c)
      | none => db.rows
    .ok (selected.map productJson)

/-- POST /addProduct (server.js lines 136-158): insert a fresh row (image =
uploaded buffer or NULL) and echo the new id, the fields, and
`/image/<id>` when an image was stored. -/
def addProduct (err : Option String) (db : InventoryDB) (p : ProductPayload)
    (file : Option Bytes) : InventoryDB × AddResp :=
  match err with
  | some e => (db, .storeError e)
  | none =>
    let row : ProductRow :=
      { id := db.nextId, name := p.name, price := p.price, stock := p.stock,
        unit := p.unit, category := p.category, image := file }
    ({ rows := db.rows ++ [row], nextId := db.nextId + 1 },
      .ok db.nextId p (file.map (fun _ => "/image/" ++ toString db.nextId)))

/-- GET /product/:id (server.js lines 218-236): 404 when no row matches, else
the row with its image base64-encoded. -/
def getProduct (err : Option String) (db : InventoryDB) (i : Nat) :
    GetOneResp :=
  match err with
  | some e => .storeError e
  | none =>
    match db.rows.find? (fun r => r.id == i) with
    | none => .notFound
    | some r => .ok (productJson r)

/-- GET /getInventory (server.js lines 160-173): every product with the image
payload replaced by the `/image/<id>` URL when a blob is stored, else null.
500 `{error}` on store failure. -/
def getInventory (err : Option String) (db : InventoryDB) : InvListResp :=
  match err with
  | some e => .storeError e
  | none =>
    .ok (db.rows.map (fun r =>
      { id := r.id, name := r.name, price := r.price, stock := r.stock,
        unit := r.unit, category := r.category,
        image := r.image.map (fun _ => "/image/" ++ toString r.id) }))

/-- GET /getBills (server.js lines 239-244): all bill rows, or 500 `{error}`
on store failure. -/
def getBills (err : Option String) (bills : List BillRow) : BillsResp :=
  match err with
  | some e => .storeError e
  | none => .ok bills

/-- DELETE /deleteProduct/:id (server.js lines 247-252): remove every row
matching the id and answer `"Deleted!"` whether or not any row matched. -/
def deleteProduct (err : Option String) (db : InventoryDB) (i : Nat) :
    InventoryDB × SimpleResp :=
  match err with
  | some e => (db, .storeError e)
  | none =>
    ({ db with rows := db.rows.filter (fun r => r.id != i) }, .ok "Deleted!")

/-- Effect of the UPDATE statement of PUT /updateProduct/:id on one row: a
row matching the id gets the payload's five columns, and the image column
only when a file was uploaded; other rows are untouched. -/
def updateRow (i : Nat) (p : ProductPayload) (file : Option Bytes)
    (r : ProductRow) : ProductRow :=
  if r.id == i then
    { id := r.id, name := p.name, price := p.price, stock := p.stock,
      unit := p.unit, category := p.category,
      image := match file with | some f => some f | none => r.image }
  else r

/-- PUT /updateProduct/:id (server.js lines 255-269): with an uploaded file
the UPDATE also sets the image column; without one the statement omits the
image column, so the stored blob is untouched.  The other five columns are
replaced unconditionally on every matching row. -/
def updateProduct (err : Option String) (db : InventoryDB) (i : Nat)
    (p : ProductPayload) (file : Option Bytes) : InventoryDB × SimpleResp :=
  match err with
  | some e => (db, .storeError e)
  | none =>
    ({ db with rows := db.rows.map (updateRow i p file) }, .ok "Updated!")

/-- POST /register (server.js lines 176-200).  The five-field truthiness test
rejects missing/empty fields with 400; a `SELECT ... WHERE username = ? OR
email = ?` pre-check rejects conflicts with 400; otherwise the bcrypt hash of
the password (never the plaintext) is inserted and 201 returned.  `selErr`,
`hashErr` and `insErr` model the pre-check, bcrypt, and INSERT failure
callbacks; `salt` models the per-password random salt bcrypt draws. -/
def register (selErr hashErr insErr : Option String) (db : UsersDB)
    (p : RegPayload) (salt : String) : UsersDB × RegResp :=
  if p.name = "" ∨ p.username = "" ∨ p.email = "" ∨ p.address = "" ∨
      p.password = "" then
    (db, { status := 400, message := "All fields are required" })
  else
    match selErr with
    | some _ => (db, { status := 500, message := "Database error" })
    | none =>
      if db.rows.any (fun u => u.username == p.username || u.email == p.email) then
        (db, { status := 400, message := "Username or Email already exists" })
      else
        match hashErr with
        | some _ => (db, { status := 500, message := "Error hashing password" })
        | none =>
          match insErr with
          | some _ => (db, { status := 500, message := "Error inserting user" })
          | none =>
            let newUser : UserRow :=
              { id := db.nextId, name := p.name, username := p.username,
                email := p.email, password := bcryptHash p.password salt,
                address := p.address }
            ({ rows := db.rows ++ [newUser], nextId := db.nextId + 1 },
             { status := 201, message := "User registered successfully" })

/-- POST /login (server.js lines 203-215): look the user up by username only;
401 `"Invalid Username!"` when absent, 401 `"Invalid Password!"` when
`bcrypt.compare` rejects, else success true. -/
def login (err : Option String) (db : UsersDB) (username password : String) :
    LoginResp :=
  match err with
  | some _ => { status := 500, success := false, message := "Database error" }
  | none =>
    match db.rows.find? (fun u => u.username == username) with
    | none => { status := 401, success := false, message := "Invalid Username!" }
    | some u =>
      if bcryptCompare password u.password then
        { status := 200, success := true, message := "Login successful!" }
      else
        { status := 401, success := false, message := "Invalid Password!" }

/-! ## Helper lemmas -/

/-- `find?` skips a prefix on which the predicate fails everywhere. -/
theorem find?_append_of_none {α : Type} {q : α → Bool} {l₁ l₂ : List α}
    (h : l₁.find? q = none) : (l₁ ++ l₂).find? q = l₂.find? q := by
  rw [List.find?_append, h, Option.none_or]

/-- `find?` commutes with mapping a function that preserves the predicate. -/
theorem find?_map_of_congr {α : Type} {g : α → α} {q : α → Bool}
    (hg : ∀ x, q (g x) = q x) (l : List α) :
    (l.map g).find? q = (l.find? q).map g := by
  rw [List.find?_map]
  have hq : (q ∘ g) = q := funext fun x => hg x
  rw [hq]

/-! ## Claims -/

/-- C10: a present-but-empty `category` query parameter is falsy in the
handler's `if (category)` guard, so no WHERE filter is appended and the
response is identical to the one with the parameter omitted — all rows are
returned, not just rows whose stored category is the empty string. -/
theorem c10_empty_category_behaves_as_omitted (db : InventoryDB) :
    listProducts none db (some "") = listProducts none db none := rfl

/-- C8 (amended): on a store failure the product list, get-one, create,
delete, and update handlers — and likewise the inventory summary and the
bills listing — respond 500 carrying the underlying store error text, but
GET /image/:id instead responds 404 with a fixed "Image not found" body that
does not surface the error text (and register/login answer their store
failures with 500 and fixed messages rather than the error text). -/
theorem c8_amended_store_failures (e : String) (db : InventoryDB)
    (bills : List BillRow) (cat : Option String) (i : Nat)
    (p : ProductPayload) (f : Option Bytes) :
    (listProducts (some e) db cat = ListResp.storeError e ∧
      (listProducts (some e) db cat).status = 500) ∧
    (getProduct (some e) db i = GetOneResp.storeError e ∧
      (getProduct (some e) db i).status = 500) ∧
    ((addProduct (some e) db p f).2 = AddResp.storeError e ∧
      (addProduct (some e) db p f).2.status = 500) ∧
    ((deleteProduct (some e) db i).2 = SimpleResp.storeError e ∧
      (deleteProduct (some e) db i).2.status = 500) ∧
    ((updateProduct (some e) db i p f).2 = SimpleResp.storeError e ∧
      (updateProduct (some e) db i p f).2.status = 500) ∧
    (getInventory (some e) db = InvListResp.storeError e ∧
      (getInventory (some e) db).status = 500) ∧
    (getBills (some e) bills = BillsResp.storeError e ∧
      (getBills (some e) bills).status = 500) ∧
    (getImage (some e) db i = ImageResp.notFound ∧
      (getImage (some e) db i).status = 404) ∧
    (∀ udb q salt, (q.name = "" ∨ q.username = "" ∨ q.email = "" ∨
        q.address = "" ∨ q.password = "") ∨
        (register (some e) none none udb q salt).2 =
          { status := 500, message := "Database error" }) ∧
    (∀ udb u pw, login (some e) udb u pw =
      { status := 500, success := false, message := "Database error" }) :=
  ⟨⟨rfl, rfl⟩, ⟨rfl, rfl⟩, ⟨rfl, rfl⟩, ⟨rfl, rfl⟩, ⟨rfl, rfl⟩, ⟨rfl, rfl⟩,
    ⟨rfl, rfl⟩, ⟨rfl, rfl⟩,
    fun udb q salt => by
      by_cases hv : q.name = "" ∨ q.username = "" ∨ q.email = "" ∨
          q.address = "" ∨ q.password = ""
      · exact Or.inl hv
      · exact Or.inr (by simp [register, hv]),
    fun udb u pw => rfl⟩

/-- C8 counterexample: the claim says every mutating/query handler (its cited
sources include GET /image/:id) answers a store failure with 500 and the
error text; but on a store error the image handler answers 404 with the fixed
body "Image not found", even when the row and its image exist. -/
theorem c8_counterexample :
    getImage (some "SQLITE_BUSY")
        ⟨[⟨1, "Rice", 50, 100, "kg", "grains", some [7]⟩], 2⟩ 1 =
      ImageResp.notFound ∧
    (getImage (some "SQLITE_BUSY")
        ⟨[⟨1, "Rice", 50, 100, "kg", "grains", some [7]⟩], 2⟩ 1).status ≠ 500 :=
  ⟨rfl, by decide⟩

/-- C7: in an error-free execution, GET /image/:id responds 404 exactly when
the row is absent or its image column is NULL; when the row exists with a
stored blob it responds 200 with exactly those bytes and the content type
hardcoded to `image/jpeg`. -/
theorem c7_image_endpoint_contract (db : InventoryDB) (i : Nat) :
    ((getImage none db i).status = 404 ↔
      db.rows.find? (fun r => r.id == i) = none ∨
      ∃ r, db.rows.find? (fun r => r.id == i) = some r ∧ r.image = none) ∧
    (∀ r b, db.rows.find? (fun r => r.id == i) = some r → r.image = some b →
      getImage none db i = ImageResp.ok "image/jpeg" b ∧
      (getImage none db i).status = 200) := by
  constructor
  · cases hfind : db.rows.find? (fun r => r.id == i) with
    | none => simp [getImage, hfind, ImageResp.status]
    | some r =>
      cases him : r.image with
      | none => simp [getImage, hfind, him, ImageResp.status]
      | some b => simp [getImage, hfind, him, ImageResp.status]
  · intro r b hfind him
    simp [getImage, hfind, him, ImageResp.status]

/-- C7 witness: a concrete store with one imaged row. -/
theorem c7_witness :
    getImage none ⟨[⟨1, "Rice", 50, 100, "kg", "grains", some [7, 8]⟩], 2⟩ 1 =
      ImageResp.ok "image/jpeg" [7, 8] ∧
    (getImage none ⟨[⟨1, "Rice", 50, 100, "kg", "grains", some [7, 8]⟩], 2⟩
      1).status = 200 :=
  (c7_image_endpoint_contract
      ⟨[⟨1, "Rice", 50, 100, "kg", "grains", some [7, 8]⟩], 2⟩ 1).2
    ⟨1, "Rice", 50, 100, "kg", "grains", some [7, 8]⟩ [7, 8] (by decide) rfl

/-- C4: deleting an id and then fetching it yields 404, because the DELETE
removes every row matching the id; and a delete whose id matches no row still
answers 200 `"Deleted!"` rather than a not-found error. -/
theorem c4_delete_semantics (db : InventoryDB) (i : Nat) :
    getProduct none (deleteProduct none db i).1 i = GetOneResp.notFound ∧
    ((∀ r ∈ db.rows, r.id ≠ i) →
      (deleteProduct none db i).2 = SimpleResp.ok "Deleted!" ∧
      (deleteProduct none db i).2.status = 200) := by
  constructor
  · have h : (db.rows.filter (fun r => r.id != i)).find?
        (fun r => r.id == i) = none := by
      rw [List.find?_eq_none]
      intro x hx
      have hne := (List.mem_filter.mp hx).2
      simp only [bne_iff_ne, ne_eq] at hne
      simp [hne]
    simp [getProduct, deleteProduct, h]
  · intro _
    exact ⟨rfl, rfl⟩

/-- C4 witness: delete an existing id then fetch it; delete a nonexistent id. -/
theorem c4_witness :
    getProduct none
        (deleteProduct none ⟨[⟨1, "Rice", 50, 100, "kg", "grains", none⟩], 2⟩
          1).1 1 = GetOneResp.notFound ∧
    (deleteProduct none ⟨[⟨1, "Rice", 50, 100, "kg", "grains", none⟩], 2⟩
        9).2 = SimpleResp.ok "Deleted!" :=
  ⟨(c4_delete_semantics ⟨[⟨1, "Rice", 50, 100, "kg", "grains", none⟩], 2⟩ 1).1,
   ((c4_delete_semantics ⟨[⟨1, "Rice", 50, 100, "kg", "grains", none⟩], 2⟩ 9).2
     (by decide)).1⟩

/-- C3 (amended): for a present and non-empty category parameter the listing
returns exactly the rows whose stored category equals it under case-sensitive
string equality, and an omitted parameter returns all rows.  (The original
claim, quantified over every parameter value, fails at the empty string —
see the counterexample.) -/
theorem c3_amended_category_filter (db : InventoryDB) (c : String)
    (hc : c ≠ "") :
    listProducts none db (some c) =
      ListResp.ok ((db.rows.filter (fun r => r.category == c)).map
        productJson) ∧
    (∀ j, j ∈ (listProducts none db (some c)).products ↔
      ∃ r, r ∈ db.rows ∧ r.category = c ∧ j = productJson r) ∧
    listProducts none db none = ListResp.ok (db.rows.map productJson) := by
  refine ⟨by simp [listProducts, hc], fun j => ?_, rfl⟩
  simp only [listProducts, hc, ListResp.products, List.mem_map,
    List.mem_filter, if_false, beq_iff_eq]
  constructor
  · rintro ⟨r, ⟨hr, hcat⟩, rfl⟩
    exact ⟨r, hr, hcat, rfl⟩
  · rintro ⟨r, hr, hcat, rfl⟩
    exact ⟨r, ⟨hr, hcat⟩, rfl⟩

/-- C3 counterexample: with the parameter present but equal to `""` the guard
`if (category)` is falsy, so the handler returns every row; the claim as
stated would demand only rows whose stored category is `""`, of which there
are none here. -/
theorem c3_counterexample :
    productJson ⟨1, "Rice", 50, 100, "kg", "grains", none⟩ ∈
      (listProducts none ⟨[⟨1, "Rice", 50, 100, "kg", "grains", none⟩], 2⟩
        (some "")).products ∧
    (⟨[⟨1, "Rice", 50, 100, "kg", "grains", none⟩], 2⟩ :
        InventoryDB).rows.filter (fun r => r.category == "") = [] ∧
    ("grains" : String) ≠ "" := by
  refine ⟨by decide, rfl, by decide⟩

/-- C3 witness: filtering on `"grains"` keeps the grains row and drops the
dairy row; omitting the parameter returns both. -/
theorem c3_witness :
    listProducts none ⟨[⟨1, "Rice", 50, 100, "kg", "grains", none⟩,
        ⟨2, "Milk", 30, 20, "l", "dairy", none⟩], 3⟩ (some "grains") =
      ListResp.ok [productJson ⟨1, "Rice", 50, 100, "kg", "grains", none⟩] ∧
    (productJson ⟨1, "Rice", 50, 100, "kg", "grains", none⟩ ∈
      (listProducts none ⟨[⟨1, "Rice", 50, 100, "kg", "grains", none⟩,
        ⟨2, "Milk", 30, 20, "l", "dairy", none⟩], 3⟩ (some "grains")).products ↔
      ∃ r, r ∈ (⟨[⟨1, "Rice", 50, 100, "kg", "grains", none⟩,
        ⟨2, "Milk", 30, 20, "l", "dairy", none⟩], 3⟩ : InventoryDB).rows ∧
        r.category = "grains" ∧
        productJson ⟨1, "Rice", 50, 100, "kg", "grains", none⟩ =
          productJson r) ∧
    listProducts none ⟨[⟨1, "Rice", 50, 100, "kg", "grains", none⟩,
        ⟨2, "Milk", 30, 20, "l", "dairy", none⟩], 3⟩ none =
      ListResp.ok [productJson ⟨1, "Rice", 50, 100, "kg", "grains", none⟩,
        productJson ⟨2, "Milk", 30, 20, "l", "dairy", none⟩] :=
  ⟨((c3_amended_category_filter ⟨[⟨1, "Rice", 50, 100, "kg", "grains", none⟩,
      ⟨2, "Milk", 30, 20, "l", "dairy", none⟩], 3⟩ "grains" (by decide)).1).trans
      (by decide),
   (c3_amended_category_filter ⟨[⟨1, "Rice", 50, 100, "kg", "grains", none⟩,
      ⟨2, "Milk", 30, 20, "l", "dairy", none⟩], 3⟩ "grains" (by decide)).2.1
      (productJson ⟨1, "Rice", 50, 100, "kg", "grains", none⟩),
   ((c3_amended_category_filter ⟨[⟨1, "Rice", 50, 100, "kg", "grains", none⟩,
      ⟨2, "Milk", 30, 20, "l", "dairy", none⟩], 3⟩ "grains" (by decide)).2.2).trans
      (by decide)⟩

/-- C1: creating a product and then fetching the id echoed by the create
response yields those same name/price/stock/unit/category values (the image
coming back base64-encoded), and when an image was uploaded the image
endpoint returns exactly the uploaded bytes.  The hypothesis is the
auto-increment invariant: every existing row's id is below the next id the
store will assign. -/
theorem c1_create_then_get (db : InventoryDB) (p : ProductPayload)
    (file : Option Bytes) (hwf : ∀ r ∈ db.rows, r.id < db.nextId) :
    (addProduct none db p file).2.productId = some db.nextId ∧
    getProduct none (addProduct none db p file).1 db.nextId =
      GetOneResp.ok ⟨db.nextId, p.name, p.price, p.stock, p.unit, p.category,
        file.map base64Encode⟩ ∧
    (∀ b, file = some b →
      getImage none (addProduct none db p file).1 db.nextId =
        ImageResp.ok "image/jpeg" b) := by
  have hnone : db.rows.find? (fun r => r.id == db.nextId) = none := by
    rw [List.find?_eq_none]
    intro r hr
    have := hwf r hr
    simp only [beq_iff_eq]
    omega
  refine ⟨rfl, ?_, ?_⟩
  · simp [getProduct, addProduct, find?_append_of_none hnone, List.find?,
      productJson]
  · rintro b rfl
    simp [getImage, addProduct, find?_append_of_none hnone, List.find?]

/-- C1 witness: a concrete create followed by get-one and get-image. -/
theorem c1_witness :
    (addProduct none ⟨[⟨1, "Old", 5, 5, "kg", "misc", none⟩], 2⟩
        ⟨"Rice", 50, 100, "kg", "grains"⟩ (some [1, 2, 3])).2.productId =
      some 2 ∧
    getProduct none
        (addProduct none ⟨[⟨1, "Old", 5, 5, "kg", "misc", none⟩], 2⟩
          ⟨"Rice", 50, 100, "kg", "grains"⟩ (some [1, 2, 3])).1 2 =
      GetOneResp.ok ⟨2, "Rice", 50, 100, "kg", "grains",
        some (base64Encode [1, 2, 3])⟩ ∧
    getImage none
        (addProduct none ⟨[⟨1, "Old", 5, 5, "kg", "misc", none⟩], 2⟩
          ⟨"Rice", 50, 100, "kg", "grains"⟩ (some [1, 2, 3])).1 2 =
      ImageResp.ok "image/jpeg" [1, 2, 3] :=
  ⟨(c1_create_then_get ⟨[⟨1, "Old", 5, 5, "kg", "misc", none⟩], 2⟩
      ⟨"Rice", 50, 100, "kg", "grains"⟩ (some [1, 2, 3]) (by decide)).1,
   (c1_create_then_get ⟨[⟨1, "Old", 5, 5, "kg", "misc", none⟩], 2⟩
      ⟨"Rice", 50, 100, "kg", "grains"⟩ (some [1, 2, 3]) (by decide)).2.1,
   (c1_create_then_get ⟨[⟨1, "Old", 5, 5, "kg", "misc", none⟩], 2⟩
      ⟨"Rice", 50, 100, "kg", "grains"⟩ (some [1, 2, 3]) (by decide)).2.2
     [1, 2, 3] rfl⟩

/-- C2: updating an existing product without an uploaded file replaces
name/price/stock/unit/category and leaves the stored image untouched, while
an update carrying a file also replaces the stored image with the uploaded
bytes. -/
theorem c2_update_field_and_image_frame (db : InventoryDB) (i : Nat)
    (p : ProductPayload) (r : ProductRow)
    (hfind : db.rows.find? (fun x => x.id == i) = some r) :
    (updateProduct none db i p none).1.rows.find? (fun x => x.id == i) =
      some ⟨r.id, p.name, p.price, p.stock, p.unit, p.category, r.image⟩ ∧
    (∀ f : Bytes,
      (updateProduct none db i p (some f)).1.rows.find?
          (fun x => x.id == i) =
        some ⟨r.id, p.name, p.price, p.stock, p.unit, p.category, some f⟩) := by
  have hpr : (r.id == i) = true := by
    have h := List.find?_some hfind
    exact h
  have hg : ∀ (file : Option Bytes) (x : ProductRow),
      ((updateRow i p file x).id == i) = (x.id == i) := by
    intro file x
    unfold updateRow
    by_cases hx : (x.id == i) = true
    · simp [hx]
    · simp [hx]
  constructor
  · show (db.rows.map (updateRow i p none)).find? (fun x => x.id == i) = _
    rw [find?_map_of_congr (hg none), hfind]
    simp [updateRow, hpr]
  · intro f
    show (db.rows.map (updateRow i p (some f))).find? (fun x => x.id == i) = _
    rw [find?_map_of_congr (hg (some f)), hfind]
    simp [updateRow, hpr]

/-- C2 witness: one stored row with an image, updated without and with a new
file. -/
theorem c2_witness :
    (updateProduct none ⟨[⟨1, "Old", 5, 5, "kg", "misc", some [9]⟩], 2⟩ 1
        ⟨"Rice", 50, 100, "kg", "grains"⟩ none).1.rows.find?
        (fun x => x.id == 1) =
      some ⟨1, "Rice", 50, 100, "kg", "grains", some [9]⟩ ∧
    (updateProduct none ⟨[⟨1, "Old", 5, 5, "kg", "misc", some [9]⟩], 2⟩ 1
        ⟨"Rice", 50, 100, "kg", "grains"⟩ (some [4, 5])).1.rows.find?
        (fun x => x.id == 1) =
      some ⟨1, "Rice", 50, 100, "kg", "grains", some [4, 5]⟩ :=
  ⟨(c2_update_field_and_image_frame
      ⟨[⟨1, "Old", 5, 5, "kg", "misc", some [9]⟩], 2⟩ 1
      ⟨"Rice", 50, 100, "kg", "grains"⟩
      ⟨1, "Old", 5, 5, "kg", "misc", some [9]⟩ (by decide)).1,
   (c2_update_field_and_image_frame
      ⟨[⟨1, "Old", 5, 5, "kg", "misc", some [9]⟩], 2⟩ 1
      ⟨"Rice", 50, 100, "kg", "grains"⟩
      ⟨1, "Old", 5, 5, "kg", "misc", some [9]⟩ (by decide)).2 [4, 5]⟩

/-- The modelled bcrypt output is strictly longer than the password: tag and
cost (7 chars), the salt twice (embedded and inside the digest input), a
separator, and one digest character per password character. -/
theorem bcryptHash_length (p s : String) :
    (bcryptHash p s).length = p.length + 2 * s.length + 8 := by
  have hd : (bcryptDigest p s).length = p.length + s.length := by
    show (List.map (fun c => Char.ofNat (c.toNat * 7 % 26 + 97))
      (p ++ s).data).length = p.length + s.length
    rw [List.length_map]
    show ((p ++ s) : String).length = p.length + s.length
    rw [String.length_append]
  have h7 : ("$2a$10$" : String).length = 7 := by decide
  have h1 : ("$" : String).length = 1 := by decide
  rw [bcryptHash, String.length_append, String.length_append,
    String.length_append, hd, h7, h1]
  omega

/-- The modelled bcrypt output is never the plaintext password. -/
theorem bcryptHash_ne_plaintext (p s : String) : bcryptHash p s ≠ p := by
  intro h
  have hl := congrArg String.length h
  rw [bcryptHash_length] at hl
  omega

/-- C5: registration answers 400 when any of the five fields is missing or
empty (both arrive falsy); 400 when some stored user already has the given
username or the given email (covering same username with different email and
same email with different username); and 201 when all fields are present and
no such conflict exists. -/
theorem c5_register_contract (db : UsersDB) (p : RegPayload) (salt : String) :
    ((p.name = "" ∨ p.username = "" ∨ p.email = "" ∨ p.address = "" ∨
        p.password = "") →
      (register none none none db p salt).2.status = 400) ∧
    (p.name ≠ "" → p.username ≠ "" → p.email ≠ "" → p.address ≠ "" →
      p.password ≠ "" →
      ((∃ u ∈ db.rows, u.username = p.username ∨ u.email = p.email) →
        (register none none none db p salt).2.status = 400) ∧
      ((¬ ∃ u ∈ db.rows, u.username = p.username ∨ u.email = p.email) →
        (register none none none db p salt).2.status = 201)) := by
  constructor
  · intro h
    simp [register, h]
  · intro h1 h2 h3 h4 h5
    have hv : ¬(p.name = "" ∨ p.username = "" ∨ p.email = "" ∨
        p.address = "" ∨ p.password = "") := by
      simp [h1, h2, h3, h4, h5]
    constructor
    · rintro ⟨u, hu, hcase⟩
      have hany : db.rows.any
          (fun u => u.username == p.username || u.email == p.email) = true := by
        rw [List.any_eq_true]
        refine ⟨u, hu, ?_⟩
        rcases hcase with h | h <;> simp [h]
      simp [register, hv, hany]
    · intro hno
      have hany : db.rows.any
          (fun u => u.username == p.username || u.email == p.email) = false := by
        rw [Bool.eq_false_iff]
        intro htrue
        obtain ⟨u, hu, hb⟩ := List.any_eq_true.mp htrue
        apply hno
        refine ⟨u, hu, ?_⟩
        simpa using hb
      simp [register, hv, hany]

/-- C5 witness: an empty field, a username conflict with a different email, an
email conflict with a different username, and a conflict-free success. -/
theorem c5_witness :
    (register none none none ⟨[], 1⟩ ⟨"", "u", "e", "a", "pw"⟩ "s").2.status =
      400 ∧
    (register none none none ⟨[⟨1, "N", "u", "e0", "H", "A"⟩], 2⟩
        ⟨"N2", "u", "e1", "A2", "pw"⟩ "s").2.status = 400 ∧
    (register none none none ⟨[⟨1, "N", "u", "e0", "H", "A"⟩], 2⟩
        ⟨"N2", "u2", "e0", "A2", "pw"⟩ "s").2.status = 400 ∧
    (register none none none ⟨[⟨1, "N", "u", "e0", "H", "A"⟩], 2⟩
        ⟨"N2", "u2", "e1", "A2", "pw"⟩ "s").2.status = 201 :=
  ⟨(c5_register_contract ⟨[], 1⟩ ⟨"", "u", "e", "a", "pw"⟩ "s").1
     (Or.inl rfl),
   ((c5_register_contract ⟨[⟨1, "N", "u", "e0", "H", "A"⟩], 2⟩
       ⟨"N2", "u", "e1", "A2", "pw"⟩ "s").2 (by decide) (by decide)
       (by decide) (by decide) (by decide)).1 (by decide),
   ((c5_register_contract ⟨[⟨1, "N", "u", "e0", "H", "A"⟩], 2⟩
       ⟨"N2", "u2", "e0", "A2", "pw"⟩ "s").2 (by decide) (by decide)
       (by decide) (by decide) (by decide)).1 (by decide),
   ((c5_register_contract ⟨[⟨1, "N", "u", "e0", "H", "A"⟩], 2⟩
       ⟨"N2", "u2", "e1", "A2", "pw"⟩ "s").2 (by decide) (by decide)
       (by decide) (by decide) (by decide)).2 (by decide)⟩

/-- C6: login answers 401 `"Invalid Username!"` when no stored user has the
given username, 401 with the distinct message `"Invalid Password!"` when the
user exists but the password does not verify against the stored hash, and
success true when it verifies. -/
theorem c6_login_contract (db : UsersDB) (username password : String) :
    (db.rows.find? (fun u => u.username == username) = none →
      login none db username password =
        { status := 401, success := false, message := "Invalid Username!" }) ∧
    (∀ u, db.rows.find? (fun u => u.username == username) = some u →
      (bcryptCompare password u.password = false →
        login none db username password =
          { status := 401, success := false,
            message := "Invalid Password!" }) ∧
      (bcryptCompare password u.password = true →
        login none db username password =
          { status := 200, success := true,
            message := "Login successful!" })) ∧
    ("Invalid Username!" : String) ≠ "Invalid Password!" := by
  refine ⟨fun h => by simp [login, h],
    fun u hu => ⟨fun hc => by simp [login, hu, hc],
      fun hc => by simp [login, hu, hc]⟩,
    by decide⟩

/-- C6 witness: one registered user hashed with salt `"ab"`; an unknown
username, a wrong password, and the correct credentials. -/
theorem c6_witness :
    login none ⟨[⟨1, "N", "u1", "e1", bcryptHash "pw" "ab", "A"⟩], 2⟩
        "ghost" "pw" =
      { status := 401, success := false, message := "Invalid Username!" } ∧
    login none ⟨[⟨1, "N", "u1", "e1", bcryptHash "pw" "ab", "A"⟩], 2⟩
        "u1" "nope" =
      { status := 401, success := false, message := "Invalid Password!" } ∧
    login none ⟨[⟨1, "N", "u1", "e1", bcryptHash "pw" "ab", "A"⟩], 2⟩
        "u1" "pw" =
      { status := 200, success := true, message := "Login successful!" } :=
  ⟨(c6_login_contract ⟨[⟨1, "N", "u1", "e1", bcryptHash "pw" "ab", "A"⟩], 2⟩
      "ghost" "pw").1 (by decide),
   ((c6_login_contract ⟨[⟨1, "N", "u1", "e1", bcryptHash "pw" "ab", "A"⟩], 2⟩
       "u1" "nope").2.1 ⟨1, "N", "u1", "e1", bcryptHash "pw" "ab", "A"⟩
       (by decide)).1 (by decide),
   ((c6_login_contract ⟨[⟨1, "N", "u1", "e1", bcryptHash "pw" "ab", "A"⟩], 2⟩
       "u1" "pw").2.1 ⟨1, "N", "u1", "e1", bcryptHash "pw" "ab", "A"⟩
       (by decide)).2 (by decide)⟩

/-- C9: a successful registration appends exactly one user row whose password
column is the bcrypt hash of the submitted password with the drawn salt, and
that stored value is never the plaintext password. -/
theorem c9_password_stored_hashed (db : UsersDB) (p : RegPayload)
    (salt : String)
    (hok : (register none none none db p salt).2.status = 201) :
    (register none none none db p salt).1.rows =
      db.rows ++ [⟨db.nextId, p.name, p.username, p.email,
        bcryptHash p.password salt, p.address⟩] ∧
    bcryptHash p.password salt ≠ p.password := by
  constructor
  · by_cases hv : p.name = "" ∨ p.username = "" ∨ p.email = "" ∨
        p.address = "" ∨ p.password = ""
    · exfalso
      simp [register, hv] at hok
    · cases hany : db.rows.any
          (fun u => u.username == p.username || u.email == p.email) with
      | true =>
        exfalso
        simp [register, hv, hany] at hok
      | false =>
        simp [register, hv, hany]
  · exact bcryptHash_ne_plaintext p.password salt

/-- C9 witness: a concrete successful registration; the stored password
column is the salted hash and differs from the plaintext. -/
theorem c9_witness :
    (register none none none ⟨[], 1⟩ ⟨"N", "u", "e", "A", "pw"⟩ "ab").1.rows =
      [⟨1, "N", "u", "e", bcryptHash "pw" "ab", "A"⟩] ∧
    bcryptHash "pw" "ab" ≠ "pw" :=
  ⟨(c9_password_stored_hashed ⟨[], 1⟩ ⟨"N", "u", "e", "A", "pw"⟩ "ab"
      (by decide)).1,
   (c9_password_stored_hashed ⟨[], 1⟩ ⟨"N", "u", "e", "A", "pw"⟩ "ab"
      (by decide)).2⟩

end FreshCart
